import Mathlib

/-!
# goipmi: IPMI command definitions (command.go)

A shallow embedding of `command.go`: the command numbers, the completion
codes with their `Code` and `Error` methods, the authentication-type and
privilege-level constant blocks, and the request/response structures.

Go's `uint8`, `uint16` and `uint32` are embedded as `Fin 256`, `Fin 65536`
and `Fin 4294967296`; a fixed-size array `[n]uint8` is a list of bytes of
length `n`.
-/

namespace ipmi

/-! ## Machine types -/

/-- Go's `uint8`. -/
abbrev uint8 := Fin 256

/-- Go's `uint16`. -/
abbrev uint16 := Fin 65536

/-- Go's `uint32`. -/
abbrev uint32 := Fin 4294967296

/-- Go's fixed-size array `[n]uint8` (also `[n]byte`). -/
abbrev ByteArr (n : Nat) := { l : List uint8 // l.length = n }

/-! ## Commands (command.go, lines 7-22) -/

/-- Command fields on an IPMI message: `type Command uint8`. -/
structure Command where
  val : uint8
deriving DecidableEq, Repr

def CommandGetDeviceID : Command := Command.mk 0x01
def CommandGetAuthCapabilities : Command := Command.mk 0x38
def CommandGetSessionChallenge : Command := Command.mk 0x39
def CommandActivateSession : Command := Command.mk 0x3a
def CommandSetSessionPrivilegeLevel : Command := Command.mk 0x3b
def CommandCloseSession : Command := Command.mk 0x3c
def CommandChassisControl : Command := Command.mk 0x02
def CommandChassisStatus : Command := Command.mk 0x01
def CommandSetSystemBootOptions : Command := Command.mk 0x08
def CommandGetSystemBootOptions : Command := Command.mk 0x09

/-- The ten identifiers declared in the command-number constant block, in
declaration order. -/
inductive CommandName where
  | CommandGetDeviceID
  | CommandGetAuthCapabilities
  | CommandGetSessionChallenge
  | CommandActivateSession
  | CommandSetSessionPrivilegeLevel
  | CommandCloseSession
  | CommandChassisControl
  | CommandChassisStatus
  | CommandSetSystemBootOptions
  | CommandGetSystemBootOptions
deriving DecidableEq, Repr

/-- The constant each identifier of the command-number block denotes. -/
def CommandName.value : CommandName → Command
  | .CommandGetDeviceID => ipmi.CommandGetDeviceID
  | .CommandGetAuthCapabilities => ipmi.CommandGetAuthCapabilities
  | .CommandGetSessionChallenge => ipmi.CommandGetSessionChallenge
  | .CommandActivateSession => ipmi.CommandActivateSession
  | .CommandSetSessionPrivilegeLevel => ipmi.CommandSetSessionPrivilegeLevel
  | .CommandCloseSession => ipmi.CommandCloseSession
  | .CommandChassisControl => ipmi.CommandChassisControl
  | .CommandChassisStatus => ipmi.CommandChassisStatus
  | .CommandSetSystemBootOptions => ipmi.CommandSetSystemBootOptions
  | .CommandGetSystemBootOptions => ipmi.CommandGetSystemBootOptions

/-! ## Completion codes (command.go, lines 24-45) -/

/-- CompletionCode is the first byte in the data field of all IPMI
responses: `type CompletionCode uint8`.  The constructor is the Go
conversion `CompletionCode(b)`. -/
structure CompletionCode where
  val : uint8
deriving DecidableEq, Repr

/-- Code returns the CompletionCode as uint8: `return uint8(c)`. -/
def CompletionCode.Code (c : CompletionCode) : uint8 := c.val

def CommandCompleted : CompletionCode := CompletionCode.mk 0x00
def InvalidCommand : CompletionCode := CompletionCode.mk 0xc1
def ErrShortPacket : CompletionCode := CompletionCode.mk 0xc7
def ErrInvalidPacket : CompletionCode := CompletionCode.mk 0xcc
def DestinationUnavailable : CompletionCode := CompletionCode.mk 0xd3
def UnspecifiedError : CompletionCode := CompletionCode.mk 0xff

/-- Upper-case digit table of Go's `fmt` package:
`udigits = "0123456789ABCDEFX"`. -/
def udigits : List Char := "0123456789ABCDEFX".toList

/-- The base-16 branch of `fmt`'s `fmtInteger` for an unsigned operand with
no flags, width or precision: digits are written right to left in front of
`buf`, `for u >= 16 { buf[i] = digits[u&0xF]; u >>= 4 }`, then the leading
digit `buf[i] = digits[u]`. -/
def fmtInteger16 (u : Nat) (buf : List Char) : List Char :=
  if 16 ≤ u then fmtInteger16 (u / 16) (udigits.getD (u % 16) '?' :: buf)
  else udigits.getD u '?' :: buf
termination_by u
decreasing_by omega

/-- The digits `fmtInteger16` writes for a one-byte operand in closed form
(see `fmtInteger16_eq_byteDigits`): one digit below 16, otherwise the high
nibble followed by the low nibble. -/
def byteDigits (b : uint8) : List Char :=
  if b.val < 16 then [udigits.getD b.val '?']
  else [udigits.getD (b.val / 16) '?', udigits.getD (b.val % 16) '?']

/-- Go's `fmt.Sprintf(text + "%X", u)` for an unsigned integer operand: the
literal text followed by `u` in base 16 with upper-case digits. -/
def SprintfX (text : String) (u : Nat) : String :=
  text ++ String.mk (fmtInteger16 u [])

/-- Error for CompletionCode:
`return fmt.Sprintf("Completion Code: %X", uint8(c))`. -/
def CompletionCode.Error (c : CompletionCode) : String :=
  SprintfX "Completion Code: " c.val.val

/-- The six constants of the completion-code block, in declaration order. -/
def namedCompletionCodes : List CompletionCode :=
  [CommandCompleted, InvalidCommand, ErrShortPacket, ErrInvalidPacket,
   DestinationUnavailable, UnspecifiedError]

/-! ## Constant blocks numbered by `iota` (command.go, lines 92-110) -/

/-- The value `iota` gives an identifier of a constant block: the index of
its line in the block.  An identifier the block does not declare gets the
block's length. -/
def iota (block : List String) (name : String) : Nat :=
  block.indexOf name

/-- The identifiers of the `AuthType` constant block, in declaration order. -/
def authTypeBlock : List String :=
  ["AuthTypeNone", "AuthTypeMD2", "AuthTypeMD5", "authTypeReserved",
   "AuthTypePassword", "AuthTypeOEM"]

def AuthTypeNone : Nat := iota authTypeBlock "AuthTypeNone"
def AuthTypeMD2 : Nat := iota authTypeBlock "AuthTypeMD2"
def AuthTypeMD5 : Nat := iota authTypeBlock "AuthTypeMD5"
def authTypeReserved : Nat := iota authTypeBlock "authTypeReserved"
def AuthTypePassword : Nat := iota authTypeBlock "AuthTypePassword"
def AuthTypeOEM : Nat := iota authTypeBlock "AuthTypeOEM"

/-- The exported (capitalised) constants of the `AuthType` block. -/
def exportedAuthTypes : List Nat :=
  [AuthTypeNone, AuthTypeMD2, AuthTypeMD5, AuthTypePassword, AuthTypeOEM]

/-- The identifiers of the `PrivLevel` constant block, in declaration order. -/
def privLevelBlock : List String :=
  ["PrivLevelNone", "PrivLevelCallback", "PrivLevelUser", "PrivLevelOperator",
   "PrivLevelAdmin", "PrivLevelOEM"]

def PrivLevelNone : Nat := iota privLevelBlock "PrivLevelNone"
def PrivLevelCallback : Nat := iota privLevelBlock "PrivLevelCallback"
def PrivLevelUser : Nat := iota privLevelBlock "PrivLevelUser"
def PrivLevelOperator : Nat := iota privLevelBlock "PrivLevelOperator"
def PrivLevelAdmin : Nat := iota privLevelBlock "PrivLevelAdmin"
def PrivLevelOEM : Nat := iota privLevelBlock "PrivLevelOEM"

/-- The six constants of the `PrivLevel` block, in declaration order. -/
def privLevels : List Nat :=
  [PrivLevelNone, PrivLevelCallback, PrivLevelUser, PrivLevelOperator,
   PrivLevelAdmin, PrivLevelOEM]

/-! ## Request and response structures (command.go, lines 54-161) -/

/-- Response to an IPMI request must include at least a CompletionCode:
the interface with the single method `Code() uint8`. -/
class Response (α : Type) where
  Code : α → uint8

/-- The Go types the structures' fields are declared with. -/
inductive GoType where
  | uint8
  | uint16
  | uint32
  | array (n : Nat)
  | named (name : String) (underlying : GoType)
deriving DecidableEq, Repr

/-- The size in bytes of a value of a Go type (`binary.Size`). -/
def GoType.size : GoType → Nat
  | .uint8 => 1
  | .uint16 => 2
  | .uint32 => 4
  | .array n => n
  | .named _ t => t.size

/-- One field of a structure declaration: its name and declared type.  An
embedded field has the name of its type. -/
structure FieldDecl where
  name : String
  type : GoType
deriving DecidableEq, Repr

/-- The unpadded size of a structure: the sum of its fields' sizes. -/
def structSize (fields : List FieldDecl) : Nat :=
  (fields.map (fun f => f.type.size)).sum

/-- Whether a Go type is a multi-byte integer, the only kind of field a byte
order applies to; a byte and an array of bytes have none. -/
def GoType.hasByteOrder : GoType → Bool
  | .uint8 => false
  | .uint16 => true
  | .uint32 => true
  | .array _ => false
  | .named _ t => t.hasByteOrder

/-- One cell of a field table: the field's name, its width in bytes, and
whether it carries the byte-order mark `LE`. -/
structure TableField where
  name : String
  width : Nat
  le : Bool
deriving DecidableEq, Repr

/-- What a field declaration says in the terms of the field table: its
declared name, the size of its type, and whether its type is a multi-byte
integer (the fields the table marks `LE`). -/
def FieldDecl.toTableField (f : FieldDecl) : TableField :=
  ⟨f.name, f.type.size, f.type.hasByteOrder⟩

/-- The name and width of a cell. -/
def TableField.nameWidth (c : TableField) : String × Nat := (c.name, c.width)

/-- The names and widths of a field table, row by row in order. -/
def namesAndWidths (t : List (String × List TableField)) :
    List (String × List (String × Nat)) :=
  t.map (fun m => (m.1, m.2.map TableField.nameWidth))

/-- DeviceIDRequest per section 20.1. -/
structure DeviceIDRequest where
deriving DecidableEq

/-- The field declarations of DeviceIDRequest, in declaration order. -/
def DeviceIDRequest.fields : List FieldDecl :=
  []

/-- DeviceIDResponse per section 20.1. -/
structure DeviceIDResponse where
  CompletionCode : ipmi.CompletionCode
  DeviceID : uint8
  DeviceRevision : uint8
  FirmwareRevision1 : uint8
  FirmwareRevision2 : uint8
  IPMIVersion : uint8
  AdditionalDeviceSupport : uint8
  ManufacturerID : uint16
  ProductID : uint16
deriving DecidableEq

/-- The field declarations of DeviceIDResponse, in declaration order. -/
def DeviceIDResponse.fields : List FieldDecl :=
  [⟨"CompletionCode", .named "CompletionCode" .uint8⟩,
   ⟨"DeviceID", .uint8⟩,
   ⟨"DeviceRevision", .uint8⟩,
   ⟨"FirmwareRevision1", .uint8⟩,
   ⟨"FirmwareRevision2", .uint8⟩,
   ⟨"IPMIVersion", .uint8⟩,
   ⟨"AdditionalDeviceSupport", .uint8⟩,
   ⟨"ManufacturerID", .uint16⟩,
   ⟨"ProductID", .uint16⟩]

/-- The method `Code` promoted from the embedded CompletionCode. -/
def DeviceIDResponse.Code (r : DeviceIDResponse) : uint8 := r.CompletionCode.Code

instance : Response DeviceIDResponse := ⟨DeviceIDResponse.Code⟩

/-- AuthCapabilitiesRequest per section 22.13. -/
structure AuthCapabilitiesRequest where
  ChannelNumber : uint8
  PrivLevel : uint8
deriving DecidableEq

/-- The field declarations of AuthCapabilitiesRequest, in declaration order. -/
def AuthCapabilitiesRequest.fields : List FieldDecl :=
  [⟨"ChannelNumber", .uint8⟩,
   ⟨"PrivLevel", .uint8⟩]

/-- AuthCapabilitiesResponse per section 22.13. -/
structure AuthCapabilitiesResponse where
  CompletionCode : ipmi.CompletionCode
  ChannelNumber : uint8
  AuthTypeSupport : uint8
  Status : uint8
  Reserved : uint8
  OEMID : uint16
  OEMAux : uint8
deriving DecidableEq

/-- The field declarations of AuthCapabilitiesResponse, in declaration order. -/
def AuthCapabilitiesResponse.fields : List FieldDecl :=
  [⟨"CompletionCode", .named "CompletionCode" .uint8⟩,
   ⟨"ChannelNumber", .uint8⟩,
   ⟨"AuthTypeSupport", .uint8⟩,
   ⟨"Status", .uint8⟩,
   ⟨"Reserved", .uint8⟩,
   ⟨"OEMID", .uint16⟩,
   ⟨"OEMAux", .uint8⟩]

/-- The method `Code` promoted from the embedded CompletionCode. -/
def AuthCapabilitiesResponse.Code (r : AuthCapabilitiesResponse) : uint8 := r.CompletionCode.Code

instance : Response AuthCapabilitiesResponse := ⟨AuthCapabilitiesResponse.Code⟩

/-- SessionChallengeRequest per section 22.16. -/
structure SessionChallengeRequest where
  AuthType : uint8
  Username : ByteArr 16
deriving DecidableEq

/-- The field declarations of SessionChallengeRequest, in declaration order. -/
def SessionChallengeRequest.fields : List FieldDecl :=
  [⟨"AuthType", .uint8⟩,
   ⟨"Username", .array 16⟩]

/-- SessionChallengeResponse per section 22.16. -/
structure SessionChallengeResponse where
  CompletionCode : ipmi.CompletionCode
  TemporarySessionID : uint32
  Challenge : ByteArr 16
deriving DecidableEq

/-- The field declarations of SessionChallengeResponse, in declaration order. -/
def SessionChallengeResponse.fields : List FieldDecl :=
  [⟨"CompletionCode", .named "CompletionCode" .uint8⟩,
   ⟨"TemporarySessionID", .uint32⟩,
   ⟨"Challenge", .array 16⟩]

/-- The method `Code` promoted from the embedded CompletionCode. -/
def SessionChallengeResponse.Code (r : SessionChallengeResponse) : uint8 := r.CompletionCode.Code

instance : Response SessionChallengeResponse := ⟨SessionChallengeResponse.Code⟩

/-- ActivateSessionRequest per section 22.17. -/
structure ActivateSessionRequest where
  AuthType : uint8
  PrivLevel : uint8
  AuthCode : ByteArr 16
  InSeq : ByteArr 4
deriving DecidableEq

/-- The field declarations of ActivateSessionRequest, in declaration order. -/
def ActivateSessionRequest.fields : List FieldDecl :=
  [⟨"AuthType", .uint8⟩,
   ⟨"PrivLevel", .uint8⟩,
   ⟨"AuthCode", .array 16⟩,
   ⟨"InSeq", .array 4⟩]

/-- ActivateSessionResponse per section 22.17. -/
structure ActivateSessionResponse where
  CompletionCode : ipmi.CompletionCode
  AuthType : uint8
  SessionID : uint32
  InboundSeq : uint32
  MaxPriv : uint8
deriving DecidableEq

/-- The field declarations of ActivateSessionResponse, in declaration order. -/
def ActivateSessionResponse.fields : List FieldDecl :=
  [⟨"CompletionCode", .named "CompletionCode" .uint8⟩,
   ⟨"AuthType", .uint8⟩,
   ⟨"SessionID", .uint32⟩,
   ⟨"InboundSeq", .uint32⟩,
   ⟨"MaxPriv", .uint8⟩]

/-- The method `Code` promoted from the embedded CompletionCode. -/
def ActivateSessionResponse.Code (r : ActivateSessionResponse) : uint8 := r.CompletionCode.Code

instance : Response ActivateSessionResponse := ⟨ActivateSessionResponse.Code⟩

/-- SessionPrivilegeLevelRequest per section 22.18. -/
structure SessionPrivilegeLevelRequest where
  PrivLevel : uint8
deriving DecidableEq

/-- The field declarations of SessionPrivilegeLevelRequest, in declaration order. -/
def SessionPrivilegeLevelRequest.fields : List FieldDecl :=
  [⟨"PrivLevel", .uint8⟩]

/-- SessionPrivilegeLevelResponse per section 22.18. -/
structure SessionPrivilegeLevelResponse where
  CompletionCode : ipmi.CompletionCode
  NewPrivilegeLevel : uint8
deriving DecidableEq

/-- The field declarations of SessionPrivilegeLevelResponse, in declaration order. -/
def SessionPrivilegeLevelResponse.fields : List FieldDecl :=
  [⟨"CompletionCode", .named "CompletionCode" .uint8⟩,
   ⟨"NewPrivilegeLevel", .uint8⟩]

/-- The method `Code` promoted from the embedded CompletionCode. -/
def SessionPrivilegeLevelResponse.Code (r : SessionPrivilegeLevelResponse) : uint8 := r.CompletionCode.Code

instance : Response SessionPrivilegeLevelResponse := ⟨SessionPrivilegeLevelResponse.Code⟩

/-- CloseSessionRequest per section 22.19. -/
structure CloseSessionRequest where
  SessionID : uint32
deriving DecidableEq

/-- The field declarations of CloseSessionRequest, in declaration order. -/
def CloseSessionRequest.fields : List FieldDecl :=
  [⟨"SessionID", .uint32⟩]

/-- CloseSessionResponse per section 22.19. -/
structure CloseSessionResponse where
  CompletionCode : ipmi.CompletionCode
deriving DecidableEq

/-- The field declarations of CloseSessionResponse, in declaration order. -/
def CloseSessionResponse.fields : List FieldDecl :=
  [⟨"CompletionCode", .named "CompletionCode" .uint8⟩]

/-- The method `Code` promoted from the embedded CompletionCode. -/
def CloseSessionResponse.Code (r : CloseSessionResponse) : uint8 := r.CompletionCode.Code

instance : Response CloseSessionResponse := ⟨CloseSessionResponse.Code⟩

/-- The eleven message structures of the field table with their declared
fields, listed in the table's row order. -/
def declaredMessages : List (String × List FieldDecl) :=
  [("AuthCapabilitiesRequest", AuthCapabilitiesRequest.fields),
   ("AuthCapabilitiesResponse", AuthCapabilitiesResponse.fields),
   ("SessionChallengeRequest", SessionChallengeRequest.fields),
   ("SessionChallengeResponse", SessionChallengeResponse.fields),
   ("ActivateSessionRequest", ActivateSessionRequest.fields),
   ("ActivateSessionResponse", ActivateSessionResponse.fields),
   ("SessionPrivilegeLevelRequest", SessionPrivilegeLevelRequest.fields),
   ("SessionPrivilegeLevelResponse", SessionPrivilegeLevelResponse.fields),
   ("CloseSessionRequest", CloseSessionRequest.fields),
   ("CloseSessionResponse", CloseSessionResponse.fields),
   ("DeviceIDResponse", DeviceIDResponse.fields)]

/-- The declared fields of the six response structures. -/
def responseFields : List (List FieldDecl) :=
  [DeviceIDResponse.fields, AuthCapabilitiesResponse.fields,
   SessionChallengeResponse.fields, ActivateSessionResponse.fields,
   SessionPrivilegeLevelResponse.fields, CloseSessionResponse.fields]

/-! ## The field table of the specification (specification side) -/

/-- The rows of the specification's request/response field table, cell by
cell in the table's order: `Name(w)` is a field of `w` bytes, `Name(w,LE)`
one that carries the little-endian mark.  The cell `Username(16, zero-padded)`
is a 16-byte field without a byte-order mark; its remark says how the field
is filled. -/
def specFieldTable : List (String × List TableField) :=
  [("AuthCapabilitiesRequest",
    [⟨"ChannelNumber", 1, false⟩,
     ⟨"PrivLevel", 1, false⟩]),
   ("AuthCapabilitiesResponse",
    [⟨"CompletionCode", 1, false⟩,
     ⟨"ChannelNumber", 1, false⟩,
     ⟨"AuthTypeSupport", 1, false⟩,
     ⟨"Status", 1, false⟩,
     ⟨"Reserved", 1, false⟩,
     ⟨"OEMID", 2, true⟩,
     ⟨"OEMAux", 1, false⟩]),
   ("SessionChallengeRequest",
    [⟨"AuthType", 1, false⟩,
     ⟨"Username", 16, false⟩]),
   ("SessionChallengeResponse",
    [⟨"CompletionCode", 1, false⟩,
     ⟨"TemporarySessionID", 4, true⟩,
     ⟨"Challenge", 16, false⟩]),
   ("ActivateSessionRequest",
    [⟨"AuthType", 1, false⟩,
     ⟨"PrivLevel", 1, false⟩,
     ⟨"AuthCode", 16, false⟩,
     ⟨"InboundSeq", 4, true⟩]),
   ("ActivateSessionResponse",
    [⟨"CompletionCode", 1, false⟩,
     ⟨"AuthType", 1, false⟩,
     ⟨"SessionID", 4, true⟩,
     ⟨"InboundSeq", 4, true⟩,
     ⟨"MaxPriv", 1, false⟩]),
   ("SessionPrivilegeLevelRequest",
    [⟨"PrivLevel", 1, false⟩]),
   ("SessionPrivilegeLevelResponse",
    [⟨"CompletionCode", 1, false⟩,
     ⟨"NewPrivilegeLevel", 1, false⟩]),
   ("CloseSessionRequest",
    [⟨"SessionID", 4, true⟩]),
   ("CloseSessionResponse",
    [⟨"CompletionCode", 1, false⟩]),
   ("DeviceIDResponse",
    [⟨"CompletionCode", 1, false⟩,
     ⟨"DeviceID", 1, false⟩,
     ⟨"DeviceRevision", 1, false⟩,
     ⟨"FirmwareRevision1", 1, false⟩,
     ⟨"FirmwareRevision2", 1, false⟩,
     ⟨"IPMIVersion", 1, false⟩,
     ⟨"AdditionalDeviceSupport", 1, false⟩,
     ⟨"ManufacturerID", 2, true⟩,
     ⟨"ProductID", 2, true⟩])]

/-- The one cell the source declares differently from the table: in the row
ActivateSessionRequest the table's `InboundSeq(4,LE)` is the declaration
`InSeq [4]uint8`, four bytes under another name and without a byte order. -/
def amendField (message : String) (c : TableField) : TableField :=
  if message = "ActivateSessionRequest" ∧ c.name = "InboundSeq" then ⟨"InSeq", c.width, false⟩
  else c

/-- The specification's field table with that one cell as the source
declares it. -/
def amendedFieldTable : List (String × List TableField) :=
  specFieldTable.map (fun m => (m.1, m.2.map (amendField m.1)))

/-- The field table the source declares: each of the eleven structures with
its declared fields in the table's terms. -/
def declaredTable : List (String × List TableField) :=
  declaredMessages.map (fun m => (m.1, m.2.map FieldDecl.toTableField))

/-- The rows at which two field tables differ, as pairs of the two rows. -/
def differingRows (s t : List (String × List TableField)) :
    List ((String × List TableField) × (String × List TableField)) :=
  (s.zip t).filter (fun p => decide (p.1 ≠ p.2))

/-! ## Wire codec (specification side)

`command.go` declares the message structures only; the functions that write
them to and read them from byte buffers are modelled from the specification's
section 4.1 and field table. -/

/-- Modelled from the spec: the codec's decode failure, which command.go does
not declare.  "If shorter, fails with ShortPacket". -/
inductive DecodeError where
  | ShortPacket
deriving DecidableEq, Repr

/-- The low byte of a number. -/
def byteOf (n : Nat) : uint8 := ⟨n % 256, Nat.mod_lt n (by decide)⟩

/-- Modelled from the spec: the codec's writer of a one-byte field, missing
from the source. -/
def putUint8 (x : uint8) : List uint8 := [x]

/-- Modelled from the spec: the codec's writer of a two-byte field, missing
from the source.  "All multi-byte integer fields are little-endian". -/
def putUint16 (x : uint16) : List uint8 := [byteOf x.val, byteOf (x.val / 256)]

/-- Modelled from the spec: the codec's writer of a four-byte field, missing
from the source.  "All multi-byte integer fields are little-endian". -/
def putUint32 (x : uint32) : List uint8 :=
  [byteOf x.val, byteOf (x.val / 256), byteOf (x.val / 65536), byteOf (x.val / 16777216)]

/-- Modelled from the spec: the codec's writer of a fixed-width array field,
missing from the source: the array's bytes in order, no padding added. -/
def putBytes {n : Nat} (x : ByteArr n) : List uint8 := x.val

/-- Modelled from the spec: the codec's reader of a one-byte field, missing
from the source; it gives the field and the rest of the buffer, and nothing
when the buffer is too short. -/
def getUint8 : List uint8 → Option (uint8 × List uint8)
  | b :: rest => some (b, rest)
  | [] => none

/-- Modelled from the spec: the codec's reader of a two-byte little-endian
field, missing from the source. -/
def getUint16 : List uint8 → Option (uint16 × List uint8)
  | b0 :: b1 :: rest => some (⟨b0.val + 256 * b1.val, by omega⟩, rest)
  | _ => none

/-- Modelled from the spec: the codec's reader of a four-byte little-endian
field, missing from the source. -/
def getUint32 : List uint8 → Option (uint32 × List uint8)
  | b0 :: b1 :: b2 :: b3 :: rest =>
    some (⟨b0.val + 256 * b1.val + 65536 * b2.val + 16777216 * b3.val, by omega⟩, rest)
  | _ => none

/-- Modelled from the spec: the codec's reader of a fixed-width array field,
missing from the source. -/
def getBytes (n : Nat) (buf : List uint8) : Option (ByteArr n × List uint8) :=
  if h : n ≤ buf.length then some (⟨buf.take n, by simp [h]⟩, buf.drop n) else none

/-- The zero value of `[n]uint8`. -/
def zeroBytes (n : Nat) : ByteArr n := ⟨List.replicate n 0, by simp⟩

/-- Modelled from the spec: decoding of a request shape, missing from the
source.  "Decoding requires the input buffer be at least as long as the
fixed layout; if shorter, fails with ShortPacket". -/
def decodeRequest {α : Type} (full : List uint8 → Option α) (buf : List uint8) :
    Except DecodeError α :=
  match full buf with
  | some r => .ok r
  | none => .error .ShortPacket

/-- Modelled from the spec: decoding of a response shape, missing from the
source.  A buffer at least as long as the fixed layout populates every field.
A shorter buffer fails with ShortPacket, except that "the first byte of every
response buffer is always interpreted as CompletionCode" and, when it is
non-zero, "decoder truncation beyond the CompletionCode byte is not an error":
the result then has that completion code and "all other fields at
zero/default". -/
def decodeResponse {α : Type} (full : List uint8 → Option α) (failed : CompletionCode → α)
    (buf : List uint8) : Except DecodeError α :=
  match full buf with
  | some r => .ok r
  | none =>
    match buf with
    | cc :: _ => if cc ≠ 0 then .ok (failed (CompletionCode.mk cc)) else .error .ShortPacket
    | [] => .error .ShortPacket

/-- Modelled from the spec: the encoder of AuthCapabilitiesRequest, missing from the source:
"writes each field per the table above in declared order and byte order; no
implicit padding". -/
def AuthCapabilitiesRequest.encode (x : AuthCapabilitiesRequest) : List uint8 :=
  putUint8 x.ChannelNumber ++
  putUint8 x.PrivLevel

/-- Modelled from the spec: the reader of the full fixed layout of
AuthCapabilitiesRequest, missing from the source; the fields in the table's order. -/
def AuthCapabilitiesRequest.decodeFields (buf : List uint8) : Option AuthCapabilitiesRequest := do
  let (f0, buf) ← getUint8 buf
  let (f1, _) ← getUint8 buf
  pure (AuthCapabilitiesRequest.mk f0 f1)

/-- Modelled from the spec: the decoder of AuthCapabilitiesRequest, missing from the source. -/
def AuthCapabilitiesRequest.decode : List uint8 → Except DecodeError AuthCapabilitiesRequest :=
  decodeRequest AuthCapabilitiesRequest.decodeFields

/-- Modelled from the spec: the encoder of AuthCapabilitiesResponse, missing from the source:
"writes each field per the table above in declared order and byte order; no
implicit padding". -/
def AuthCapabilitiesResponse.encode (x : AuthCapabilitiesResponse) : List uint8 :=
  putUint8 x.CompletionCode.val ++
  putUint8 x.ChannelNumber ++
  putUint8 x.AuthTypeSupport ++
  putUint8 x.Status ++
  putUint8 x.Reserved ++
  putUint16 x.OEMID ++
  putUint8 x.OEMAux

/-- Modelled from the spec: the reader of the full fixed layout of
AuthCapabilitiesResponse, missing from the source; the fields in the table's order. -/
def AuthCapabilitiesResponse.decodeFields (buf : List uint8) : Option AuthCapabilitiesResponse := do
  let (f0, buf) ← getUint8 buf
  let (f1, buf) ← getUint8 buf
  let (f2, buf) ← getUint8 buf
  let (f3, buf) ← getUint8 buf
  let (f4, buf) ← getUint8 buf
  let (f5, buf) ← getUint16 buf
  let (f6, _) ← getUint8 buf
  pure (AuthCapabilitiesResponse.mk (CompletionCode.mk f0) f1 f2 f3 f4 f5 f6)

/-- Modelled from the spec: the decoder of AuthCapabilitiesResponse, missing from the source. -/
def AuthCapabilitiesResponse.decode : List uint8 → Except DecodeError AuthCapabilitiesResponse :=
  decodeResponse AuthCapabilitiesResponse.decodeFields (fun cc => AuthCapabilitiesResponse.mk cc 0 0 0 0 0 0)

/-- Modelled from the spec: the encoder of SessionChallengeRequest, missing from the source:
"writes each field per the table above in declared order and byte order; no
implicit padding". -/
def SessionChallengeRequest.encode (x : SessionChallengeRequest) : List uint8 :=
  putUint8 x.AuthType ++
  putBytes x.Username

/-- Modelled from the spec: the reader of the full fixed layout of
SessionChallengeRequest, missing from the source; the fields in the table's order. -/
def SessionChallengeRequest.decodeFields (buf : List uint8) : Option SessionChallengeRequest := do
  let (f0, buf) ← getUint8 buf
  let (f1, _) ← getBytes 16 buf
  pure (SessionChallengeRequest.mk f0 f1)

/-- Modelled from the spec: the decoder of SessionChallengeRequest, missing from the source. -/
def SessionChallengeRequest.decode : List uint8 → Except DecodeError SessionChallengeRequest :=
  decodeRequest SessionChallengeRequest.decodeFields

/-- Modelled from the spec: the encoder of SessionChallengeResponse, missing from the source:
"writes each field per the table above in declared order and byte order; no
implicit padding". -/
def SessionChallengeResponse.encode (x : SessionChallengeResponse) : List uint8 :=
  putUint8 x.CompletionCode.val ++
  putUint32 x.TemporarySessionID ++
  putBytes x.Challenge

/-- Modelled from the spec: the reader of the full fixed layout of
SessionChallengeResponse, missing from the source; the fields in the table's order. -/
def SessionChallengeResponse.decodeFields (buf : List uint8) : Option SessionChallengeResponse := do
  let (f0, buf) ← getUint8 buf
  let (f1, buf) ← getUint32 buf
  let (f2, _) ← getBytes 16 buf
  pure (SessionChallengeResponse.mk (CompletionCode.mk f0) f1 f2)

/-- Modelled from the spec: the decoder of SessionChallengeResponse, missing from the source. -/
def SessionChallengeResponse.decode : List uint8 → Except DecodeError SessionChallengeResponse :=
  decodeResponse SessionChallengeResponse.decodeFields (fun cc => SessionChallengeResponse.mk cc 0 (zeroBytes 16))

/-- Modelled from the spec: the encoder of ActivateSessionRequest, missing from the source:
"writes each field per the table above in declared order and byte order; no
implicit padding". -/
def ActivateSessionRequest.encode (x : ActivateSessionRequest) : List uint8 :=
  putUint8 x.AuthType ++
  putUint8 x.PrivLevel ++
  putBytes x.AuthCode ++
  putBytes x.InSeq

/-- Modelled from the spec: the reader of the full fixed layout of
ActivateSessionRequest, missing from the source; the fields in the table's order. -/
def ActivateSessionRequest.decodeFields (buf : List uint8) : Option ActivateSessionRequest := do
  let (f0, buf) ← getUint8 buf
  let (f1, buf) ← getUint8 buf
  let (f2, buf) ← getBytes 16 buf
  let (f3, _) ← getBytes 4 buf
  pure (ActivateSessionRequest.mk f0 f1 f2 f3)

/-- Modelled from the spec: the decoder of ActivateSessionRequest, missing from the source. -/
def ActivateSessionRequest.decode : List uint8 → Except DecodeError ActivateSessionRequest :=
  decodeRequest ActivateSessionRequest.decodeFields

/-- Modelled from the spec: the encoder of ActivateSessionResponse, missing from the source:
"writes each field per the table above in declared order and byte order; no
implicit padding". -/
def ActivateSessionResponse.encode (x : ActivateSessionResponse) : List uint8 :=
  putUint8 x.CompletionCode.val ++
  putUint8 x.AuthType ++
  putUint32 x.SessionID ++
  putUint32 x.InboundSeq ++
  putUint8 x.MaxPriv

/-- Modelled from the spec: the reader of the full fixed layout of
ActivateSessionResponse, missing from the source; the fields in the table's order. -/
def ActivateSessionResponse.decodeFields (buf : List uint8) : Option ActivateSessionResponse := do
  let (f0, buf) ← getUint8 buf
  let (f1, buf) ← getUint8 buf
  let (f2, buf) ← getUint32 buf
  let (f3, buf) ← getUint32 buf
  let (f4, _) ← getUint8 buf
  pure (ActivateSessionResponse.mk (CompletionCode.mk f0) f1 f2 f3 f4)

/-- Modelled from the spec: the decoder of ActivateSessionResponse, missing from the source. -/
def ActivateSessionResponse.decode : List uint8 → Except DecodeError ActivateSessionResponse :=
  decodeResponse ActivateSessionResponse.decodeFields (fun cc => ActivateSessionResponse.mk cc 0 0 0 0)

/-- Modelled from the spec: the encoder of SessionPrivilegeLevelRequest, missing from the source:
"writes each field per the table above in declared order and byte order; no
implicit padding". -/
def SessionPrivilegeLevelRequest.encode (x : SessionPrivilegeLevelRequest) : List uint8 :=
  putUint8 x.PrivLevel

/-- Modelled from the spec: the reader of the full fixed layout of
SessionPrivilegeLevelRequest, missing from the source; the fields in the table's order. -/
def SessionPrivilegeLevelRequest.decodeFields (buf : List uint8) : Option SessionPrivilegeLevelRequest := do
  let (f0, _) ← getUint8 buf
  pure (SessionPrivilegeLevelRequest.mk f0)

/-- Modelled from the spec: the decoder of SessionPrivilegeLevelRequest, missing from the source. -/
def SessionPrivilegeLevelRequest.decode : List uint8 → Except DecodeError SessionPrivilegeLevelRequest :=
  decodeRequest SessionPrivilegeLevelRequest.decodeFields

/-- Modelled from the spec: the encoder of SessionPrivilegeLevelResponse, missing from the source:
"writes each field per the table above in declared order and byte order; no
implicit padding". -/
def SessionPrivilegeLevelResponse.encode (x : SessionPrivilegeLevelResponse) : List uint8 :=
  putUint8 x.CompletionCode.val ++
  putUint8 x.NewPrivilegeLevel

/-- Modelled from the spec: the reader of the full fixed layout of
SessionPrivilegeLevelResponse, missing from the source; the fields in the table's order. -/
def SessionPrivilegeLevelResponse.decodeFields (buf : List uint8) : Option SessionPrivilegeLevelResponse := do
  let (f0, buf) ← getUint8 buf
  let (f1, _) ← getUint8 buf
  pure (SessionPrivilegeLevelResponse.mk (CompletionCode.mk f0) f1)

/-- Modelled from the spec: the decoder of SessionPrivilegeLevelResponse, missing from the source. -/
def SessionPrivilegeLevelResponse.decode : List uint8 → Except DecodeError SessionPrivilegeLevelResponse :=
  decodeResponse SessionPrivilegeLevelResponse.decodeFields (fun cc => SessionPrivilegeLevelResponse.mk cc 0)

/-- Modelled from the spec: the encoder of CloseSessionRequest, missing from the source:
"writes each field per the table above in declared order and byte order; no
implicit padding". -/
def CloseSessionRequest.encode (x : CloseSessionRequest) : List uint8 :=
  putUint32 x.SessionID

/-- Modelled from the spec: the reader of the full fixed layout of
CloseSessionRequest, missing from the source; the fields in the table's order. -/
def CloseSessionRequest.decodeFields (buf : List uint8) : Option CloseSessionRequest := do
  let (f0, _) ← getUint32 buf
  pure (CloseSessionRequest.mk f0)

/-- Modelled from the spec: the decoder of CloseSessionRequest, missing from the source. -/
def CloseSessionRequest.decode : List uint8 → Except DecodeError CloseSessionRequest :=
  decodeRequest CloseSessionRequest.decodeFields

/-- Modelled from the spec: the encoder of CloseSessionResponse, missing from the source:
"writes each field per the table above in declared order and byte order; no
implicit padding". -/
def CloseSessionResponse.encode (x : CloseSessionResponse) : List uint8 :=
  putUint8 x.CompletionCode.val

/-- Modelled from the spec: the reader of the full fixed layout of
CloseSessionResponse, missing from the source; the fields in the table's order. -/
def CloseSessionResponse.decodeFields (buf : List uint8) : Option CloseSessionResponse := do
  let (f0, _) ← getUint8 buf
  pure (CloseSessionResponse.mk (CompletionCode.mk f0))

/-- Modelled from the spec: the decoder of CloseSessionResponse, missing from the source. -/
def CloseSessionResponse.decode : List uint8 → Except DecodeError CloseSessionResponse :=
  decodeResponse CloseSessionResponse.decodeFields (fun cc => CloseSessionResponse.mk cc)

/-- Modelled from the spec: the encoder of DeviceIDResponse, missing from the source:
"writes each field per the table above in declared order and byte order; no
implicit padding". -/
def DeviceIDResponse.encode (x : DeviceIDResponse) : List uint8 :=
  putUint8 x.CompletionCode.val ++
  putUint8 x.DeviceID ++
  putUint8 x.DeviceRevision ++
  putUint8 x.FirmwareRevision1 ++
  putUint8 x.FirmwareRevision2 ++
  putUint8 x.IPMIVersion ++
  putUint8 x.AdditionalDeviceSupport ++
  putUint16 x.ManufacturerID ++
  putUint16 x.ProductID

/-- Modelled from the spec: the reader of the full fixed layout of
DeviceIDResponse, missing from the source; the fields in the table's order. -/
def DeviceIDResponse.decodeFields (buf : List uint8) : Option DeviceIDResponse := do
  let (f0, buf) ← getUint8 buf
  let (f1, buf) ← getUint8 buf
  let (f2, buf) ← getUint8 buf
  let (f3, buf) ← getUint8 buf
  let (f4, buf) ← getUint8 buf
  let (f5, buf) ← getUint8 buf
  let (f6, buf) ← getUint8 buf
  let (f7, buf) ← getUint16 buf
  let (f8, _) ← getUint16 buf
  pure (DeviceIDResponse.mk (CompletionCode.mk f0) f1 f2 f3 f4 f5 f6 f7 f8)

/-- Modelled from the spec: the decoder of DeviceIDResponse, missing from the source. -/
def DeviceIDResponse.decode : List uint8 → Except DecodeError DeviceIDResponse :=
  decodeResponse DeviceIDResponse.decodeFields (fun cc => DeviceIDResponse.mk cc 0 0 0 0 0 0 0 0)

/-! ## Reading hexadecimal text (specification side) -/

/-- An upper-case hexadecimal digit: `0`-`9` or `A`-`F`. -/
def isUpperHexDigit (ch : Char) : Bool :=
  (48 ≤ ch.toNat && ch.toNat ≤ 57) || (65 ≤ ch.toNat && ch.toNat ≤ 70)

/-- The value of an upper-case hexadecimal digit. -/
def hexDigitValue (ch : Char) : Nat :=
  if ch.toNat ≤ 57 then ch.toNat - 48 else ch.toNat - 55

/-- The number a string of hexadecimal digits denotes, most significant
digit first. -/
def hexValue (ds : List Char) : Nat :=
  ds.foldl (fun acc ch => 16 * acc + hexDigitValue ch) 0

/-! ## Theorems -/

/-- The digits `fmtInteger16` writes for a one-byte operand: one digit below
16, otherwise the high nibble followed by the low nibble. -/
theorem fmtInteger16_byte (u : Nat) (h : u < 256) :
    fmtInteger16 u [] =
      if u < 16 then [udigits.getD u '?']
      else [udigits.getD (u / 16) '?', udigits.getD (u % 16) '?'] := by
  by_cases h16 : u < 16
  · rw [fmtInteger16, if_neg (by omega), if_pos h16]
  · rw [fmtInteger16, if_pos (by omega), fmtInteger16, if_neg (by omega), if_neg h16]

theorem fmtInteger16_eq_byteDigits (b : uint8) :
    fmtInteger16 b.val [] = byteDigits b :=
  fmtInteger16_byte b.val b.isLt

set_option maxRecDepth 100000 in
theorem byteDigits_spec : ∀ b : uint8,
    (byteDigits b).all isUpperHexDigit = true ∧ hexValue (byteDigits b) = b.val ∧
    (byteDigits b = ['0'] ∨ (byteDigits b).head? ≠ some '0') ∧
    (byteDigits b).length = (if b.val < 0x10 then 1 else 2) := by
  decide


/-- C1: the six named completion codes have the byte values 0x00, 0xC1,
0xC7, 0xCC, 0xD3 and 0xFF; they are pairwise distinct, and CommandCompleted
is the only one of the six whose Code is 0x00. -/
theorem named_completion_code_values :
    CommandCompleted.Code = 0x00 ∧ InvalidCommand.Code = 0xC1 ∧
    ErrShortPacket.Code = 0xC7 ∧ ErrInvalidPacket.Code = 0xCC ∧
    DestinationUnavailable.Code = 0xD3 ∧ UnspecifiedError.Code = 0xFF ∧
    namedCompletionCodes.Nodup ∧
    (namedCompletionCodes.map CompletionCode.Code).Nodup ∧
    namedCompletionCodes.filter (fun c => c.Code = 0x00) = [CommandCompleted] := by
  decide

/-- C2: Code returns the completion code as its raw byte and loses nothing:
converting a byte to a CompletionCode and taking Code gives the byte back,
converting the Code of a completion code gives the completion code back, so
Code is a bijection between completion codes and the 256 bytes, and the Code
of c is 0x00 exactly when c is CommandCompleted. -/
theorem Code_roundtrip :
    (∀ b : uint8, (CompletionCode.mk b).Code = b) ∧
    (∀ c : CompletionCode, CompletionCode.mk c.Code = c) ∧
    Function.Bijective CompletionCode.Code ∧
    (∀ b : uint8, ∃ c : CompletionCode, c.Code = b) ∧
    (∀ c : CompletionCode, c.Code = 0x00 ↔ c = CommandCompleted) := by
  have h1 : ∀ b : uint8, (CompletionCode.mk b).Code = b := fun _ => rfl
  have h2 : ∀ c : CompletionCode, CompletionCode.mk c.Code = c := fun _ => rfl
  refine ⟨h1, h2, ⟨?_, ?_⟩, ?_, ?_⟩
  · intro a b hab
    rw [← h2 a, ← h2 b, hab]
  · intro b
    exact ⟨CompletionCode.mk b, rfl⟩
  · intro b
    exact ⟨CompletionCode.mk b, rfl⟩
  · intro c
    constructor
    · intro h
      rw [← h2 c, h]
      rfl
    · intro h
      rw [h]
      rfl

/-- The text of `Error` is the fixed header followed by the digits of the
code. -/
theorem Error_eq (c : CompletionCode) :
    c.Error = "Completion Code: " ++ String.mk (byteDigits c.val) := by
  rw [← fmtInteger16_eq_byteDigits]
  rfl

/-- The code can be read back from the text of `Error`. -/
theorem Error_data (c : CompletionCode) :
    c.Error.data = "Completion Code: ".data ++ byteDigits c.val := by
  rw [Error_eq, String.data_append]

/-- C9: the error text of a completion code identifies the code: Error is
injective, so equal texts come from equal completion codes. -/
theorem Error_injective (c1 c2 : CompletionCode) (h : c1.Error = c2.Error) :
    c1 = c2 := by
  have hd : c1.Error.data = c2.Error.data := by rw [h]
  rw [Error_data, Error_data] at hd
  have hb : byteDigits c1.val = byteDigits c2.val := List.append_cancel_left hd
  have hv : c1.val.val = c2.val.val := by
    rw [← (byteDigits_spec c1.val).2.1, ← (byteDigits_spec c2.val).2.1, hb]
  cases c1
  cases c2
  simp only [CompletionCode.mk.injEq]
  exact Fin.ext hv

/-- C9 at a concrete input: the completion code built from the byte 0xC1 has
the error text of InvalidCommand, so it is InvalidCommand. -/
theorem Error_injective_witness :
    (CompletionCode.mk 0xC1).Error = InvalidCommand.Error ∧
    CompletionCode.mk 0xC1 = InvalidCommand :=
  ⟨rfl, Error_injective (CompletionCode.mk 0xC1) InvalidCommand rfl⟩

/-- C10: Error is total with a fixed format: its text is "Completion Code: "
followed by the value of the code in upper-case hexadecimal, with no prefix
and no leading zero; 0x00 gives "Completion Code: 0", 0x0A gives
"Completion Code: A", 0xC1 gives "Completion Code: C1"; the text is never
empty and has length 18 below 0x10 and 19 otherwise. -/
theorem Error_format :
    (∀ c : CompletionCode, ∃ ds : List Char,
      c.Error = "Completion Code: " ++ String.mk ds ∧
      ds.all isUpperHexDigit = true ∧ hexValue ds = c.val.val ∧
      (ds = ['0'] ∨ ds.head? ≠ some '0') ∧
      c.Error ≠ "" ∧
      c.Error.length = (if c.val.val < 0x10 then 18 else 19)) ∧
    CommandCompleted.Error = "Completion Code: 0" ∧
    (CompletionCode.mk 0x0A).Error = "Completion Code: A" ∧
    InvalidCommand.Error = "Completion Code: C1" := by
  refine ⟨?_, ?_, ?_, ?_⟩
  · intro c
    obtain ⟨hall, hval, hlead, hlen⟩ := byteDigits_spec c.val
    have hl : c.Error.length = 17 + (byteDigits c.val).length := by
      rw [Error_eq, String.length_append]
      rfl
    refine ⟨byteDigits c.val, Error_eq c, hall, hval, hlead, ?_, ?_⟩
    · intro he
      rw [he] at hl
      have : ("" : String).length = 0 := rfl
      omega
    · rw [hl, hlen]
      split <;> rfl
  · rw [Error_eq]; decide
  · rw [Error_eq]; decide
  · rw [Error_eq]; decide

/-- C3: every concrete response carries a completion code and is a Response
through it: for each of the six response types the Code of a response, also
through the Response interface, is the byte of its embedded CompletionCode
field, so two responses of one type that agree on CompletionCode have the
same Code whatever their other fields hold. -/
theorem response_Code_is_embedded_code :
    ((∀ r : DeviceIDResponse, Response.Code r = r.CompletionCode.val) ∧
     (∀ r : AuthCapabilitiesResponse, Response.Code r = r.CompletionCode.val) ∧
     (∀ r : SessionChallengeResponse, Response.Code r = r.CompletionCode.val) ∧
     (∀ r : ActivateSessionResponse, Response.Code r = r.CompletionCode.val) ∧
     (∀ r : SessionPrivilegeLevelResponse, Response.Code r = r.CompletionCode.val) ∧
     (∀ r : CloseSessionResponse, Response.Code r = r.CompletionCode.val)) ∧
    ((∀ r s : DeviceIDResponse,
        r.CompletionCode = s.CompletionCode → r.Code = s.Code) ∧
     (∀ r s : AuthCapabilitiesResponse,
        r.CompletionCode = s.CompletionCode → r.Code = s.Code) ∧
     (∀ r s : SessionChallengeResponse,
        r.CompletionCode = s.CompletionCode → r.Code = s.Code) ∧
     (∀ r s : ActivateSessionResponse,
        r.CompletionCode = s.CompletionCode → r.Code = s.Code) ∧
     (∀ r s : SessionPrivilegeLevelResponse,
        r.CompletionCode = s.CompletionCode → r.Code = s.Code) ∧
     (∀ r s : CloseSessionResponse,
        r.CompletionCode = s.CompletionCode → r.Code = s.Code)) := by
  refine ⟨⟨fun _ => rfl, fun _ => rfl, fun _ => rfl, fun _ => rfl, fun _ => rfl,
    fun _ => rfl⟩, ?_, ?_, ?_, ?_, ?_, ?_⟩
  · intro r s h
    simp only [DeviceIDResponse.Code, h]
  · intro r s h
    simp only [AuthCapabilitiesResponse.Code, h]
  · intro r s h
    simp only [SessionChallengeResponse.Code, h]
  · intro r s h
    simp only [ActivateSessionResponse.Code, h]
  · intro r s h
    simp only [SessionPrivilegeLevelResponse.Code, h]
  · intro r s h
    simp only [CloseSessionResponse.Code, h]

/-- C3 at concrete inputs: two ActivateSessionResponse values with the
completion code 0xC1 and different other fields have the same Code, 0xC1. -/
theorem response_Code_is_embedded_code_witness :
    (ActivateSessionResponse.mk InvalidCommand 2 0x42 1 4).Code =
      (ActivateSessionResponse.mk InvalidCommand 0 0 0 0).Code ∧
    (ActivateSessionResponse.mk InvalidCommand 2 0x42 1 4).Code = 0xC1 :=
  ⟨response_Code_is_embedded_code.2.2.2.2.1
      (ActivateSessionResponse.mk InvalidCommand 2 0x42 1 4)
      (ActivateSessionResponse.mk InvalidCommand 0 0 0 0) rfl,
   by decide⟩

/-- C6 as stated fails on the names: the declared fields of the eleven
structures, by name and width, are not the cells of the specification's field
table.  ActivateSessionRequest declares AuthType, PrivLevel, AuthCode, InSeq
where the table's row reads AuthType, PrivLevel, AuthCode, InboundSeq. -/
theorem message_fields_differ_from_table :
    namesAndWidths declaredTable ≠ namesAndWidths specFieldTable ∧
    ActivateSessionRequest.fields.map (fun f => f.name) =
      ["AuthType", "PrivLevel", "AuthCode", "InSeq"] ∧
    (specFieldTable.lookup "ActivateSessionRequest").map
        (fun row => row.map (fun c => c.name)) =
      some ["AuthType", "PrivLevel", "AuthCode", "InboundSeq"] := by
  decide

/-- C6, amended: each message structure declares exactly the fields of its
row of the field table, under the table's names, in the table's order, with
the table's byte widths (uint8 1, uint16 2, uint32 4, [4]uint8 4, [16]uint8
16) and as a multi-byte integer exactly where the table marks LE, with one
exception: the fourth field of ActivateSessionRequest is declared as InSeq, a
[4]uint8 byte array, where the table writes InboundSeq(4,LE).  That row is
the only one that differs.  The first field of every response is the
one-byte CompletionCode, and the unpadded sizes are 2, 8, 17, 21, 22, 11, 1,
2, 4, 1 and 11 bytes. -/
theorem message_layouts_match_table :
    declaredTable = amendedFieldTable ∧
    differingRows specFieldTable declaredTable =
      [(("ActivateSessionRequest",
          [⟨"AuthType", 1, false⟩, ⟨"PrivLevel", 1, false⟩, ⟨"AuthCode", 16, false⟩,
           ⟨"InboundSeq", 4, true⟩]),
        ("ActivateSessionRequest",
          [⟨"AuthType", 1, false⟩, ⟨"PrivLevel", 1, false⟩, ⟨"AuthCode", 16, false⟩,
           ⟨"InSeq", 4, false⟩]))] ∧
    ActivateSessionRequest.fields.getLast? = some ⟨"InSeq", .array 4⟩ ∧
    (GoType.uint8.size = 1 ∧ GoType.uint16.size = 2 ∧ GoType.uint32.size = 4 ∧
      (GoType.array 4).size = 4 ∧ (GoType.array 16).size = 16) ∧
    responseFields.all (fun fs =>
      fs.head? = some ⟨"CompletionCode", .named "CompletionCode" .uint8⟩ &&
      (fs.map (fun f => f.type.size)).head? = some 1) = true ∧
    structSize AuthCapabilitiesRequest.fields = 2 ∧
    structSize AuthCapabilitiesResponse.fields = 8 ∧
    structSize SessionChallengeRequest.fields = 17 ∧
    structSize SessionChallengeResponse.fields = 21 ∧
    structSize ActivateSessionRequest.fields = 22 ∧
    structSize ActivateSessionResponse.fields = 11 ∧
    structSize SessionPrivilegeLevelRequest.fields = 1 ∧
    structSize SessionPrivilegeLevelResponse.fields = 2 ∧
    structSize CloseSessionRequest.fields = 4 ∧
    structSize CloseSessionResponse.fields = 1 ∧
    structSize DeviceIDResponse.fields = 11 := by
  decide

/-- C4: the authentication type constants keep the wire numbering with its
gap at the reserved value: None 0, MD2 1, MD5 2, reserved 3, Password 4,
OEM 5; none of the five exported constants is the reserved value 3, and the
five are pairwise distinct. -/
theorem auth_type_numbering :
    AuthTypeNone = 0 ∧ AuthTypeMD2 = 1 ∧ AuthTypeMD5 = 2 ∧
    authTypeReserved = 3 ∧ AuthTypePassword = 4 ∧ AuthTypeOEM = 5 ∧
    authTypeReserved ∉ exportedAuthTypes ∧ 3 ∉ exportedAuthTypes ∧
    exportedAuthTypes.Nodup := by
  decide

/-- C5: command numbers are not globally unique and the only collision among
the ten named commands is GetDeviceID / ChassisStatus at 0x01: two named
commands have the same value exactly when they are the same command or are
that pair; the five session commands are 0x38, 0x39, 0x3A, 0x3B, 0x3C. -/
theorem command_number_collision :
    CommandGetDeviceID.val = 0x01 ∧ CommandChassisStatus.val = 0x01 ∧
    (∀ a b : CommandName, a.value = b.value ↔
      (a = b ∨
       (a = .CommandGetDeviceID ∧ b = .CommandChassisStatus) ∨
       (a = .CommandChassisStatus ∧ b = .CommandGetDeviceID))) ∧
    CommandGetAuthCapabilities.val = 0x38 ∧
    CommandGetSessionChallenge.val = 0x39 ∧
    CommandActivateSession.val = 0x3A ∧
    CommandSetSessionPrivilegeLevel.val = 0x3B ∧
    CommandCloseSession.val = 0x3C ∧
    CommandGetSessionChallenge.val.val = CommandGetAuthCapabilities.val.val + 1 ∧
    CommandActivateSession.val.val = CommandGetSessionChallenge.val.val + 1 ∧
    CommandSetSessionPrivilegeLevel.val.val = CommandActivateSession.val.val + 1 ∧
    CommandCloseSession.val.val = CommandSetSessionPrivilegeLevel.val.val + 1 := by
  refine ⟨by decide, by decide, ?_, by decide, by decide, by decide, by decide,
    by decide, by decide, by decide, by decide, by decide⟩
  intro a b
  cases a <;> cases b <;> decide

/-- C7: the privilege level constants are numbered consecutively in the
order None, Callback, User, Operator, Admin, OEM from 0 to 5, so the numeric
order is strictly increasing with privilege and every value fits a one-byte
field. -/
theorem priv_level_numbering :
    PrivLevelNone = 0 ∧ PrivLevelCallback = 1 ∧ PrivLevelUser = 2 ∧
    PrivLevelOperator = 3 ∧ PrivLevelAdmin = 4 ∧ PrivLevelOEM = 5 ∧
    PrivLevelNone < PrivLevelCallback ∧ PrivLevelCallback < PrivLevelUser ∧
    PrivLevelUser < PrivLevelOperator ∧ PrivLevelOperator < PrivLevelAdmin ∧
    PrivLevelAdmin < PrivLevelOEM ∧
    privLevels.Pairwise (fun a b => a < b) ∧
    privLevels.all (fun p => p < 256) = true := by
  decide

/-! ### The wire codec -/

theorem getUint8_put (x : uint8) (rest : List uint8) :
    getUint8 (putUint8 x ++ rest) = some (x, rest) := rfl

theorem getUint16_put (x : uint16) (rest : List uint8) :
    getUint16 (putUint16 x ++ rest) = some (x, rest) := by
  simp only [putUint16, getUint16, List.cons_append, List.nil_append, byteOf, Option.some.injEq,
    Prod.mk.injEq, and_true]
  apply Fin.ext
  have := x.isLt
  simp only
  omega

theorem getUint32_put (x : uint32) (rest : List uint8) :
    getUint32 (putUint32 x ++ rest) = some (x, rest) := by
  simp only [putUint32, getUint32, List.cons_append, List.nil_append, byteOf, Option.some.injEq,
    Prod.mk.injEq, and_true]
  apply Fin.ext
  have := x.isLt
  simp only
  omega

theorem getBytes_put {n : Nat} (x : ByteArr n) (rest : List uint8) :
    getBytes n (putBytes x ++ rest) = some (x, rest) := by
  obtain ⟨l, hl⟩ := x
  have h : n ≤ (l ++ rest).length := by simp [hl]
  simp only [putBytes, getBytes, dif_pos h, Option.some.injEq, Prod.mk.injEq, Subtype.mk.injEq]
  exact ⟨List.take_left' hl, List.drop_left' hl⟩

theorem decodeRequest_of_some {α : Type} (full : List uint8 → Option α) (buf : List uint8)
    (x : α) (h : full buf = some x) : decodeRequest full buf = .ok x := by
  simp only [decodeRequest, h]

theorem decodeResponse_of_some {α : Type} (full : List uint8 → Option α)
    (failed : CompletionCode → α) (buf : List uint8) (x : α) (h : full buf = some x) :
    decodeResponse full failed buf = .ok x := by
  simp only [decodeResponse, h]

theorem decodeFields_encode_AuthCapabilitiesRequest (x : AuthCapabilitiesRequest) (rest : List uint8) :
    AuthCapabilitiesRequest.decodeFields (x.encode ++ rest) = some x := by
  cases x
  simp only [AuthCapabilitiesRequest.encode, AuthCapabilitiesRequest.decodeFields, List.append_assoc, getUint8_put,
    getUint16_put, getUint32_put, getBytes_put, Option.bind_eq_bind, Option.some_bind,
    Option.pure_def]

theorem decodeFields_encode_AuthCapabilitiesResponse (x : AuthCapabilitiesResponse) (rest : List uint8) :
    AuthCapabilitiesResponse.decodeFields (x.encode ++ rest) = some x := by
  cases x
  simp only [AuthCapabilitiesResponse.encode, AuthCapabilitiesResponse.decodeFields, List.append_assoc, getUint8_put,
    getUint16_put, getUint32_put, getBytes_put, Option.bind_eq_bind, Option.some_bind,
    Option.pure_def]

theorem decodeFields_encode_SessionChallengeRequest (x : SessionChallengeRequest) (rest : List uint8) :
    SessionChallengeRequest.decodeFields (x.encode ++ rest) = some x := by
  cases x
  simp only [SessionChallengeRequest.encode, SessionChallengeRequest.decodeFields, List.append_assoc, getUint8_put,
    getUint16_put, getUint32_put, getBytes_put, Option.bind_eq_bind, Option.some_bind,
    Option.pure_def]

theorem decodeFields_encode_SessionChallengeResponse (x : SessionChallengeResponse) (rest : List uint8) :
    SessionChallengeResponse.decodeFields (x.encode ++ rest) = some x := by
  cases x
  simp only [SessionChallengeResponse.encode, SessionChallengeResponse.decodeFields, List.append_assoc, getUint8_put,
    getUint16_put, getUint32_put, getBytes_put, Option.bind_eq_bind, Option.some_bind,
    Option.pure_def]

theorem decodeFields_encode_ActivateSessionRequest (x : ActivateSessionRequest) (rest : List uint8) :
    ActivateSessionRequest.decodeFields (x.encode ++ rest) = some x := by
  cases x
  simp only [ActivateSessionRequest.encode, ActivateSessionRequest.decodeFields, List.append_assoc, getUint8_put,
    getUint16_put, getUint32_put, getBytes_put, Option.bind_eq_bind, Option.some_bind,
    Option.pure_def]

theorem decodeFields_encode_ActivateSessionResponse (x : ActivateSessionResponse) (rest : List uint8) :
    ActivateSessionResponse.decodeFields (x.encode ++ rest) = some x := by
  cases x
  simp only [ActivateSessionResponse.encode, ActivateSessionResponse.decodeFields, List.append_assoc, getUint8_put,
    getUint16_put, getUint32_put, getBytes_put, Option.bind_eq_bind, Option.some_bind,
    Option.pure_def]

theorem decodeFields_encode_SessionPrivilegeLevelRequest (x : SessionPrivilegeLevelRequest) (rest : List uint8) :
    SessionPrivilegeLevelRequest.decodeFields (x.encode ++ rest) = some x := by
  cases x
  simp only [SessionPrivilegeLevelRequest.encode, SessionPrivilegeLevelRequest.decodeFields, List.append_assoc, getUint8_put,
    getUint16_put, getUint32_put, getBytes_put, Option.bind_eq_bind, Option.some_bind,
    Option.pure_def]

theorem decodeFields_encode_SessionPrivilegeLevelResponse (x : SessionPrivilegeLevelResponse) (rest : List uint8) :
    SessionPrivilegeLevelResponse.decodeFields (x.encode ++ rest) = some x := by
  cases x
  simp only [SessionPrivilegeLevelResponse.encode, SessionPrivilegeLevelResponse.decodeFields, List.append_assoc, getUint8_put,
    getUint16_put, getUint32_put, getBytes_put, Option.bind_eq_bind, Option.some_bind,
    Option.pure_def]

theorem decodeFields_encode_CloseSessionRequest (x : CloseSessionRequest) (rest : List uint8) :
    CloseSessionRequest.decodeFields (x.encode ++ rest) = some x := by
  cases x
  simp only [CloseSessionRequest.encode, CloseSessionRequest.decodeFields, List.append_assoc, getUint8_put,
    getUint16_put, getUint32_put, getBytes_put, Option.bind_eq_bind, Option.some_bind,
    Option.pure_def]

theorem decodeFields_encode_CloseSessionResponse (x : CloseSessionResponse) (rest : List uint8) :
    CloseSessionResponse.decodeFields (x.encode ++ rest) = some x := by
  cases x
  simp only [CloseSessionResponse.encode, CloseSessionResponse.decodeFields, List.append_assoc, getUint8_put,
    getUint16_put, getUint32_put, getBytes_put, Option.bind_eq_bind, Option.some_bind,
    Option.pure_def]

theorem decodeFields_encode_DeviceIDResponse (x : DeviceIDResponse) (rest : List uint8) :
    DeviceIDResponse.decodeFields (x.encode ++ rest) = some x := by
  cases x
  simp only [DeviceIDResponse.encode, DeviceIDResponse.decodeFields, List.append_assoc, getUint8_put,
    getUint16_put, getUint32_put, getBytes_put, Option.bind_eq_bind, Option.some_bind,
    Option.pure_def]

/-- C8: round trip of the wire codec: for each of the eleven request and
response shapes of the field table and every value x of the shape (each field
within the range of its width), decoding the encoding of x gives x back. -/
theorem codec_roundtrip :
    (∀ x : AuthCapabilitiesRequest, AuthCapabilitiesRequest.decode x.encode = .ok x) ∧
    (∀ x : AuthCapabilitiesResponse, AuthCapabilitiesResponse.decode x.encode = .ok x) ∧
    (∀ x : SessionChallengeRequest, SessionChallengeRequest.decode x.encode = .ok x) ∧
    (∀ x : SessionChallengeResponse, SessionChallengeResponse.decode x.encode = .ok x) ∧
    (∀ x : ActivateSessionRequest, ActivateSessionRequest.decode x.encode = .ok x) ∧
    (∀ x : ActivateSessionResponse, ActivateSessionResponse.decode x.encode = .ok x) ∧
    (∀ x : SessionPrivilegeLevelRequest, SessionPrivilegeLevelRequest.decode x.encode = .ok x) ∧
    (∀ x : SessionPrivilegeLevelResponse, SessionPrivilegeLevelResponse.decode x.encode = .ok x) ∧
    (∀ x : CloseSessionRequest, CloseSessionRequest.decode x.encode = .ok x) ∧
    (∀ x : CloseSessionResponse, CloseSessionResponse.decode x.encode = .ok x) ∧
    (∀ x : DeviceIDResponse, DeviceIDResponse.decode x.encode = .ok x) := by
  refine ⟨?_, ?_, ?_, ?_, ?_, ?_, ?_, ?_, ?_, ?_, ?_⟩ <;> intro x
  · exact decodeRequest_of_some _ _ x
      (by simpa only [List.append_nil] using decodeFields_encode_AuthCapabilitiesRequest x [])
  · exact decodeResponse_of_some _ _ _ x
      (by simpa only [List.append_nil] using decodeFields_encode_AuthCapabilitiesResponse x [])
  · exact decodeRequest_of_some _ _ x
      (by simpa only [List.append_nil] using decodeFields_encode_SessionChallengeRequest x [])
  · exact decodeResponse_of_some _ _ _ x
      (by simpa only [List.append_nil] using decodeFields_encode_SessionChallengeResponse x [])
  · exact decodeRequest_of_some _ _ x
      (by simpa only [List.append_nil] using decodeFields_encode_ActivateSessionRequest x [])
  · exact decodeResponse_of_some _ _ _ x
      (by simpa only [List.append_nil] using decodeFields_encode_ActivateSessionResponse x [])
  · exact decodeRequest_of_some _ _ x
      (by simpa only [List.append_nil] using decodeFields_encode_SessionPrivilegeLevelRequest x [])
  · exact decodeResponse_of_some _ _ _ x
      (by simpa only [List.append_nil] using decodeFields_encode_SessionPrivilegeLevelResponse x [])
  · exact decodeRequest_of_some _ _ x
      (by simpa only [List.append_nil] using decodeFields_encode_CloseSessionRequest x [])
  · exact decodeResponse_of_some _ _ _ x
      (by simpa only [List.append_nil] using decodeFields_encode_CloseSessionResponse x [])
  · exact decodeResponse_of_some _ _ _ x
      (by simpa only [List.append_nil] using decodeFields_encode_DeviceIDResponse x [])

end ipmi
